import Mathlib

/-
Shallow embedding of the password-reset OTP handshake of `src/main.py`
(FastAPI endpoints `POST /request-password-otp-and-code` and
`POST /verify-otp-and-get-code`).

The external collaborators (Firebase identity lookup and reset-link mint,
the Redis TTL cache, and the yagmail dispatcher) are modelled as explicit
inputs to the handlers:
- the Redis cache is an association list from key to (value, expiry instant),
  with `setex`, `get` and `delete` mirroring the atomic per-key operations;
- identity lookup, link generation, email dispatch and each individual
  cache operation carry an outcome flag so the handler's error paths
  (lines 141-160, 167-183, 193-224 of `src/main.py`) are all reachable.

Machine time is a `Nat` (seconds); `setex ttl` stores expiry `now + ttl`
and a `get` at time `t` returns the value only while `t < expiry`.
-/

namespace GearUp

/-- Outcome of `auth.get_user_by_email` (src/main.py lines 141-147):
either the user exists, or `UserNotFoundError` is raised, or some other
exception occurs. -/
inductive LookupResult where
  | found
  | notFound
  | fault
deriving DecidableEq

/-- The Redis cache: key to (value, absolute expiry instant). -/
abbrev Cache := List (String × String × Nat)

/-- First entry stored under `key`, with its expiry instant. -/
def cacheLookup : Cache → String → Option (String × Nat)
  | [], _ => none
  | (k, v, e) :: rest, key => if k = key then some (v, e) else cacheLookup rest key

/-- Redis `GET` at time `now`: an entry is visible only before its expiry. -/
def cacheGet (c : Cache) (now : Nat) (key : String) : Option String :=
  match cacheLookup c key with
  | some (v, e) => if now < e then some v else none
  | none => none

/-- Redis `DEL key`: removes every entry stored under `key`. -/
def cacheDel : Cache → String → Cache
  | [], _ => []
  | (k, v, e) :: rest, key =>
      if k = key then cacheDel rest key else (k, v, e) :: cacheDel rest key

/-- Redis `SETEX key ttl value` issued at time `now`: overwrites any
existing entry and stores expiry `now + ttl`. -/
def cacheSetex (c : Cache) (now : Nat) (key value : String) (ttl : Nat) : Cache :=
  (key, value, now + ttl) :: cacheDel c key

/-- src/main.py line 107: `OTP_EXPIRY_SECONDS = 10 * 60`. -/
def OTP_EXPIRY_SECONDS : Nat := 10 * 60

/-- Key for the stored OTP (src/main.py lines 108, 169): `otp_reset:{email}`. -/
def otpKey (email : String) : String := "otp_reset:" ++ email

/-- Key for the stored oobCode (src/main.py lines 109, 171): `oob_reset:{email}`. -/
def oobKey (email : String) : String := "oob_reset:" ++ email

/-- One decimal digit as a character, `'0'` to `'9'`. -/
def digitChar (d : Fin 10) : Char := Char.ofNat (48 + d.val)

/-- src/main.py lines 112-113: `generate_otp` draws `length` characters
from `string.digits`; the random choices are the oracle `pick`. -/
def generate_otp (pick : Nat → Fin 10) (length : Nat) : String :=
  String.mk ((List.range length).map (fun i => digitChar (pick i)))

/-- Whether `sub` is an initial segment of the first list (Python
`str.startswith` at one scan position). -/
def listStartsWith : List Char → List Char → Bool
  | _, [] => true
  | [], _ :: _ => false
  | x :: xs, y :: ys => x == y && listStartsWith xs ys

/-- Scan for the first position at or after accumulator `i` where `sub`
starts; `none` models Python `str.find` returning `-1`. -/
def findSubAux (sub : List Char) : List Char → Nat → Option Nat
  | [], i => if listStartsWith [] sub then some i else none
  | x :: t, i =>
      if listStartsWith (x :: t) sub then some i
      else findSubAux sub t (i + 1)

/-- Python `l.find(sub, start)` for nonempty `sub`: index of the first
occurrence of `sub` in `l` at or after `start`, `none` when absent. -/
def strFind (l sub : List Char) (start : Nat) : Option Nat :=
  (findSubAux sub (l.drop start) 0).map (fun j => start + j)

/-- The parameter marker `"oobCode="` searched for in the reset link
(src/main.py lines 151-153). -/
def oobMarker : List Char := "oobCode=".toList

/-- src/main.py lines 151-157: reject a link without `"oobCode="`,
otherwise slice `link[start:end]` where `start` is just past the first
occurrence of the marker and `end` is the next `'&'` (or end of string),
and reject an empty extraction. `none` models the raised `ValueError`. -/
def extract_oob_code (link : List Char) : Option (List Char) :=
  match strFind link oobMarker 0 with
  | none => none
  | some idx =>
      let start := idx + oobMarker.length
      let oob :=
        match strFind link ['&'] start with
        | some stop => (link.drop start).take (stop - start)
        | none => link.drop start
      if oob.isEmpty then none else some oob

/-- External-world oracle for one Initiator request: the identity lookup
outcome, the reset link returned by `generate_password_reset_link`
(`none` models the call raising), the random digits of `generate_otp`,
and whether each `setex` and the email dispatch succeed. -/
structure InitEnv where
  lookup : LookupResult
  linkResult : Option String
  otpPick : Nat → Fin 10
  setex1Fails : Bool
  setex2Fails : Bool
  emailSends : Bool

/-- The token the credential-mint step yields: the extraction of
src/main.py lines 149-157 applied to the returned link, `none` when the
link call raised, the marker is absent, or the extraction is empty. -/
def mintedToken (env : InitEnv) : Option String :=
  match env.linkResult with
  | none => none
  | some link => (extract_oob_code link.toList).map String.mk

/-- Result of one Initiator request: HTTP status, success body message,
the resulting cache, and whether email dispatch was ever attempted. -/
structure InitOutcome where
  status : Nat
  message : Option String
  cache : Cache
  emailAttempted : Bool
deriving DecidableEq

/-- src/main.py line 185: the success acknowledgement; a function of the
email alone, so it carries neither the OTP nor the oobCode. -/
def ackMessage (email : String) : String :=
  "OTP đã được gửi tới " ++ email ++ ". Vui lòng kiểm tra email."

/-- src/main.py lines 138-185, `request_password_otp_and_code`:
identity lookup (404 on `UserNotFoundError`, 500 on another fault), link
mint and token extraction (500 on failure), OTP generation, the two
`setex` writes (500 on a `RedisError`, the first write kept when only the
second raises), email dispatch, and on dispatch failure the compensating
deletes of both keys followed by a 500. -/
def request_password_otp_and_code (env : InitEnv) (c : Cache) (now : Nat)
    (email : String) : InitOutcome :=
  match env.lookup with
  | .notFound => ⟨404, none, c, false⟩
  | .fault => ⟨500, none, c, false⟩
  | .found =>
      match mintedToken env with
      | none => ⟨500, none, c, false⟩
      | some oob =>
          let otp := generate_otp env.otpPick 4
          if env.setex1Fails then ⟨500, none, c, false⟩
          else
            let c1 := cacheSetex c now (otpKey email) otp OTP_EXPIRY_SECONDS
            if env.setex2Fails then ⟨500, none, c1, false⟩
            else
              let c2 := cacheSetex c1 now (oobKey email) oob OTP_EXPIRY_SECONDS
              if env.emailSends then ⟨200, some (ackMessage email), c2, true⟩
              else ⟨500, none, cacheDel (cacheDel c2 (otpKey email)) (oobKey email), true⟩

/-- External-world oracle for one Verifier request: whether each of the
two Redis `get` calls and each of the two cleanup `delete` calls raises
a `RedisError`. -/
structure VerifyEnv where
  getOtpFails : Bool
  getOobFails : Bool
  delOtpFails : Bool
  delOobFails : Bool
deriving DecidableEq

/-- The oracle in which every Redis operation succeeds. -/
def noFaults : VerifyEnv := ⟨false, false, false, false⟩

/-- Result of one Verifier request: HTTP status, the returned oobCode
(on status 200), and the resulting cache. -/
structure VerifyOutcome where
  status : Nat
  oobCode : Option String
  cache : Cache
deriving DecidableEq

/-- src/main.py lines 188-227, `verify_otp_and_get_code`: read the stored
OTP (500 on `RedisError`, 404 when missing, expired, or falsy), compare as
exact strings (400 on mismatch), read the stored oobCode (500 on
`RedisError` or a missing or falsy value), then the two cleanup deletes in
one try block whose `RedisError` is swallowed — when the first delete
raises the second is never attempted — and return 200 with the oobCode. -/
def verify_otp_and_get_code (env : VerifyEnv) (c : Cache) (now : Nat)
    (email submitted : String) : VerifyOutcome :=
  if env.getOtpFails then ⟨500, none, c⟩
  else
    match cacheGet c now (otpKey email) with
    | none => ⟨404, none, c⟩
    | some stored =>
        if stored = "" then ⟨404, none, c⟩
        else if stored ≠ submitted then ⟨400, none, c⟩
        else if env.getOobFails then ⟨500, none, c⟩
        else
          match cacheGet c now (oobKey email) with
          | none => ⟨500, none, c⟩
          | some oob =>
              if oob = "" then ⟨500, none, c⟩
              else
                let cleaned :=
                  if env.delOtpFails then c
                  else
                    let c1 := cacheDel c (otpKey email)
                    if env.delOobFails then c1 else cacheDel c1 (oobKey email)
                ⟨200, some oob, cleaned⟩

theorem cacheLookup_del (c : Cache) (key k : String) :
    cacheLookup (cacheDel c key) k = if k = key then none else cacheLookup c k := by
  induction c with
  | nil => simp [cacheDel, cacheLookup]
  | cons hd tl ih =>
      obtain ⟨k0, v, e⟩ := hd
      simp only [cacheDel, cacheLookup]
      by_cases h1 : k0 = key <;> by_cases h2 : k0 = k <;> by_cases h3 : k = key <;>
        simp_all [cacheLookup]

theorem cacheLookup_setex_self (c : Cache) (now : Nat) (key value : String) (ttl : Nat) :
    cacheLookup (cacheSetex c now key value ttl) key = some (value, now + ttl) := by
  simp [cacheSetex, cacheLookup]

theorem cacheLookup_setex_other (c : Cache) (now : Nat) (key value : String) (ttl : Nat)
    (k : String) (h : k ≠ key) :
    cacheLookup (cacheSetex c now key value ttl) k = cacheLookup c k := by
  have h' : ¬ key = k := fun hh => h hh.symm
  simp [cacheSetex, cacheLookup, cacheLookup_del, h, h']

theorem otpKey_ne_oobKey (email : String) : otpKey email ≠ oobKey email := by
  intro h
  have hdata := congrArg String.data h
  simp [otpKey, oobKey] at hdata

theorem generate_otp_ne_empty (pick : Nat → Fin 10) (n : Nat) (hn : 0 < n) :
    generate_otp pick n ≠ "" := by
  intro h
  have hlen := congrArg (fun s => s.data.length) h
  simp [generate_otp] at hlen
  omega

theorem findSubAux_shift (sub : List Char) (l : List Char) :
    ∀ i : Nat, findSubAux sub l i = (findSubAux sub l 0).map (fun j => j + i) := by
  induction l with
  | nil =>
      intro i
      simp only [findSubAux]
      split <;> simp
  | cons x t ih =>
      intro i
      simp only [findSubAux]
      by_cases hP : listStartsWith (x :: t) sub
      · simp [hP]
      · simp only [hP, if_false, Bool.false_eq_true]
        rw [ih (i + 1), ih (0 + 1)]
        cases findSubAux sub t 0 <;> simp; omega

theorem findSubAux_single_some (a : Char) :
    ∀ (l : List Char) (j : Nat), findSubAux [a] l 0 = some j →
      l.take j = l.takeWhile (fun x => x != a) := by
  intro l
  induction l with
  | nil => intro j h; simp [findSubAux, listStartsWith] at h
  | cons x t ih =>
      intro j h
      by_cases hx : x = a
      · have hsw : listStartsWith (x :: t) [a] = true := by
          simp [listStartsWith, hx]
        simp only [findSubAux, hsw, if_true] at h
        cases h
        simp [List.takeWhile_cons, hx]
      · have hsw : listStartsWith (x :: t) [a] = false := by
          simp [listStartsWith, hx]
        simp only [findSubAux, hsw, Bool.false_eq_true, if_false] at h
        rw [findSubAux_shift] at h
        cases hft : findSubAux [a] t 0 with
        | none => rw [hft] at h; simp at h
        | some j' =>
            rw [hft] at h
            have hj : j = j' + (0 + 1) := by
              simpa using h.symm
            subst hj
            have hbne : (x != a) = true := by simp [hx]
            simp [List.takeWhile_cons, hbne, List.take_succ_cons, ih j' hft]

theorem findSubAux_single_none (a : Char) :
    ∀ l : List Char, findSubAux [a] l 0 = none →
      l.takeWhile (fun x => x != a) = l := by
  intro l
  induction l with
  | nil => intro h; simp
  | cons x t ih =>
      intro h
      by_cases hx : x = a
      · exfalso
        have hsw : listStartsWith (x :: t) [a] = true := by
          simp [listStartsWith, hx]
        simp [findSubAux, hsw] at h
      · have hsw : listStartsWith (x :: t) [a] = false := by
          simp [listStartsWith, hx]
        simp only [findSubAux, hsw, Bool.false_eq_true, if_false] at h
        rw [findSubAux_shift] at h
        cases hft : findSubAux [a] t 0 with
        | some j' => rw [hft] at h; simp at h
        | none =>
            have hbne : (x != a) = true := by simp [hx]
            simp [List.takeWhile_cons, hbne, ih hft]

theorem extract_oob_code_ne_nil (link t : List Char)
    (h : extract_oob_code link = some t) : t ≠ [] := by
  cases hf : strFind link oobMarker 0 with
  | none => simp [extract_oob_code, hf] at h
  | some idx =>
      simp only [extract_oob_code, hf] at h
      split at h
      · exact absurd h (by simp)
      · cases h
        rename_i hne
        intro hnil
        rw [hnil] at hne
        simp at hne

theorem mintedToken_ne_empty (env : InitEnv) (tok : String)
    (h : mintedToken env = some tok) : tok ≠ "" := by
  cases hl : env.linkResult with
  | none => simp [mintedToken, hl] at h
  | some link =>
      simp only [mintedToken, hl] at h
      cases he : extract_oob_code link.toList with
      | none => rw [he] at h; simp at h
      | some t =>
          rw [he] at h
          simp at h
          intro hempty
          rw [← h] at hempty
          have ht : t = [] := by
            have hd := congrArg String.data hempty
            simpa using hd
          exact extract_oob_code_ne_nil _ _ he ht

/-- C2: whenever the code cache entry for the email holds a (nonempty, as
any generated code is) stored code and the submitted code differs from it
as a string, the verifier answers 400 with no credential and the cache is
left exactly as it was; the oobCode read and the cleanup deletes are never
reached, so their fault flags may be arbitrary. -/
theorem verify_mismatch_leaves_state (env : VerifyEnv) (c : Cache) (now : Nat)
    (email submitted stored : String)
    (henv : env.getOtpFails = false)
    (hstored : cacheGet c now (otpKey email) = some stored)
    (hne : stored ≠ "")
    (hmismatch : submitted ≠ stored) :
    verify_otp_and_get_code env c now email submitted = ⟨400, none, c⟩ := by
  have hms : stored ≠ submitted := fun h => hmismatch h.symm
  simp [verify_otp_and_get_code, henv, hstored, hne, hms]

theorem verify_mismatch_leaves_state_witness :
    verify_otp_and_get_code ⟨false, true, true, true⟩
        [("otp_reset:u@x.co", "4821", 600), ("oob_reset:u@x.co", "tokW", 600)]
        3 "u@x.co" "0000"
      = ⟨400, none,
          [("otp_reset:u@x.co", "4821", 600), ("oob_reset:u@x.co", "tokW", 600)]⟩ :=
  verify_mismatch_leaves_state ⟨false, true, true, true⟩
    [("otp_reset:u@x.co", "4821", 600), ("oob_reset:u@x.co", "tokW", 600)]
    3 "u@x.co" "0000" "4821" rfl (by decide) (by decide) (by decide)

/-- C5: when the code cache entry for the email is absent or already
expired at the time of the call, the verifier answers 404 with no
credential and an unchanged cache, whatever code was submitted; neither
the comparison nor the credential read is reached, so the oobCode-read
and delete fault flags may be arbitrary. -/
theorem verify_missing_code_not_found (env : VerifyEnv) (c : Cache) (now : Nat)
    (email submitted : String)
    (henv : env.getOtpFails = false)
    (hmissing : cacheGet c now (otpKey email) = none) :
    verify_otp_and_get_code env c now email submitted = ⟨404, none, c⟩ := by
  simp [verify_otp_and_get_code, henv, hmissing]

theorem verify_missing_code_not_found_witness :
    verify_otp_and_get_code ⟨false, true, true, true⟩
        [("oob_reset:u@x.co", "tokW", 600)] 3 "u@x.co" "4821"
      = ⟨404, none, [("oob_reset:u@x.co", "tokW", 600)]⟩ :=
  verify_missing_code_not_found ⟨false, true, true, true⟩
    [("oob_reset:u@x.co", "tokW", 600)] 3 "u@x.co" "4821" rfl (by decide)

/-- C9: on the verifier's success path, when the delete of the code entry
raises, the guarded block is left at once, so the delete of the credential
entry is never attempted — the outcome is the same for either value of its
fault flag — and the call still answers 200 with the credential over a
completely unchanged cache, both entries left to expire via TTL. -/
theorem verify_cleanup_single_guard (c : Cache) (now : Nat)
    (email submitted oob : String) (f2 : Bool)
    (hstored : cacheGet c now (otpKey email) = some submitted)
    (hne : submitted ≠ "")
    (hoob : cacheGet c now (oobKey email) = some oob)
    (hoobne : oob ≠ "") :
    verify_otp_and_get_code ⟨false, false, true, f2⟩ c now email submitted
      = ⟨200, some oob, c⟩ := by
  simp [verify_otp_and_get_code, hstored, hne, hoob, hoobne]

theorem verify_cleanup_single_guard_witness :
    verify_otp_and_get_code ⟨false, false, true, true⟩
        [("otp_reset:u@x.co", "4821", 600), ("oob_reset:u@x.co", "tokW", 600)]
        3 "u@x.co" "4821"
      = ⟨200, some "tokW",
          [("otp_reset:u@x.co", "4821", 600), ("oob_reset:u@x.co", "tokW", 600)]⟩ :=
  verify_cleanup_single_guard
    [("otp_reset:u@x.co", "4821", 600), ("oob_reset:u@x.co", "tokW", 600)]
    3 "u@x.co" "4821" "tokW" true (by decide) (by decide) (by decide) (by decide)

/-- C6: when the identity lookup raises `UserNotFoundError` the initiator
answers 404, when it raises anything else the initiator answers 500, and
when the lookup succeeds but the credential mint yields no token (link
call raised, marker absent, or empty extraction) the initiator answers
500; in every case the cache is returned exactly as given and the email
dispatch step is never attempted. -/
theorem initiator_upstream_fault_no_side_effects (env : InitEnv) (c : Cache)
    (now : Nat) (email : String) :
    (env.lookup = LookupResult.notFound →
      request_password_otp_and_code env c now email = ⟨404, none, c, false⟩) ∧
    (env.lookup = LookupResult.fault →
      request_password_otp_and_code env c now email = ⟨500, none, c, false⟩) ∧
    (env.lookup = LookupResult.found → mintedToken env = none →
      request_password_otp_and_code env c now email = ⟨500, none, c, false⟩) := by
  refine ⟨fun h => ?_, fun h => ?_, fun h hm => ?_⟩
  · simp [request_password_otp_and_code, h]
  · simp [request_password_otp_and_code, h]
  · simp [request_password_otp_and_code, h, hm]

theorem initiator_upstream_fault_no_side_effects_witness :
    request_password_otp_and_code
        ⟨LookupResult.notFound, some "https://e/p?oobCode=tokW&m=1", fun _ => 7,
          false, false, true⟩
        [] 0 "u@x.co"
      = ⟨404, none, [], false⟩ :=
  (initiator_upstream_fault_no_side_effects
      ⟨LookupResult.notFound, some "https://e/p?oobCode=tokW&m=1", fun _ => 7,
        false, false, true⟩
      [] 0 "u@x.co").1 rfl

/-- C10: when the first `setex` (the code entry) succeeds and the second
`setex` (the credential entry) raises, the initiator answers 500 without
attempting email dispatch and without rolling back the first write: the
code entry is stored with its full 600-second expiry while the credential
entry is exactly what the prior cache held under that key — in particular
absent when it was absent before, leaving a code with no partner
credential until its TTL elapses. -/
theorem initiator_partial_write_no_rollback (env : InitEnv) (c : Cache)
    (now : Nat) (email tok : String) (o : InitOutcome)
    (hfound : env.lookup = LookupResult.found)
    (hmint : mintedToken env = some tok)
    (h1 : env.setex1Fails = false)
    (h2 : env.setex2Fails = true)
    (ho : request_password_otp_and_code env c now email = o) :
    o.status = 500 ∧ o.emailAttempted = false ∧
    cacheLookup o.cache (otpKey email)
      = some (generate_otp env.otpPick 4, now + OTP_EXPIRY_SECONDS) ∧
    cacheLookup o.cache (oobKey email) = cacheLookup c (oobKey email) ∧
    (cacheLookup c (oobKey email) = none →
      cacheLookup o.cache (oobKey email) = none) := by
  subst ho
  have hcache : (request_password_otp_and_code env c now email).cache
      = cacheSetex c now (otpKey email) (generate_otp env.otpPick 4)
          OTP_EXPIRY_SECONDS := by
    simp [request_password_otp_and_code, hfound, hmint, h1, h2]
  refine ⟨?_, ?_, ?_, ?_, ?_⟩
  · simp [request_password_otp_and_code, hfound, hmint, h1, h2]
  · simp [request_password_otp_and_code, hfound, hmint, h1, h2]
  · rw [hcache, cacheLookup_setex_self]
  · rw [hcache,
      cacheLookup_setex_other _ _ _ _ _ _ (Ne.symm (otpKey_ne_oobKey email))]
  · intro hnone
    rw [hcache,
      cacheLookup_setex_other _ _ _ _ _ _ (Ne.symm (otpKey_ne_oobKey email))]
    exact hnone

theorem initiator_partial_write_no_rollback_witness :
    cacheLookup
        (request_password_otp_and_code
          ⟨LookupResult.found, some "https://e/p?oobCode=tokW&m=1", fun _ => 7,
            false, true, true⟩
          [] 0 "u@x.co").cache
        (otpKey "u@x.co")
      = some (generate_otp (fun _ => 7) 4, 0 + OTP_EXPIRY_SECONDS) :=
  (initiator_partial_write_no_rollback
      ⟨LookupResult.found, some "https://e/p?oobCode=tokW&m=1", fun _ => 7,
        false, true, true⟩
      [] 0 "u@x.co" "tokW" _ rfl (by decide) rfl rfl rfl).2.2.1

/-- C7: a successful initiator call (lookup found, token minted, both
writes and the dispatch succeeding) answers 200 and stores exactly the two
entries `otp_reset:{email}` and `oob_reset:{email}`, holding the generated
code and the extracted token, both with expiry instant
`now + OTP_EXPIRY_SECONDS` where `OTP_EXPIRY_SECONDS = 600`, so both
expire at the same instant; every other key is untouched. -/
theorem initiator_success_writes_pair (env : InitEnv) (c : Cache) (now : Nat)
    (email tok : String) (o : InitOutcome)
    (hfound : env.lookup = LookupResult.found)
    (hmint : mintedToken env = some tok)
    (h1 : env.setex1Fails = false)
    (h2 : env.setex2Fails = false)
    (hsend : env.emailSends = true)
    (ho : request_password_otp_and_code env c now email = o) :
    o.status = 200 ∧
    cacheLookup o.cache (otpKey email)
      = some (generate_otp env.otpPick 4, now + OTP_EXPIRY_SECONDS) ∧
    cacheLookup o.cache (oobKey email) = some (tok, now + OTP_EXPIRY_SECONDS) ∧
    OTP_EXPIRY_SECONDS = 600 ∧
    (∀ k : String, k ≠ otpKey email → k ≠ oobKey email →
      cacheLookup o.cache k = cacheLookup c k) := by
  subst ho
  have hcache : (request_password_otp_and_code env c now email).cache
      = cacheSetex
          (cacheSetex c now (otpKey email) (generate_otp env.otpPick 4)
            OTP_EXPIRY_SECONDS)
          now (oobKey email) tok OTP_EXPIRY_SECONDS := by
    simp [request_password_otp_and_code, hfound, hmint, h1, h2, hsend]
  refine ⟨?_, ?_, ?_, rfl, ?_⟩
  · simp [request_password_otp_and_code, hfound, hmint, h1, h2, hsend]
  · rw [hcache, cacheLookup_setex_other _ _ _ _ _ _ (otpKey_ne_oobKey email),
      cacheLookup_setex_self]
  · rw [hcache, cacheLookup_setex_self]
  · intro k hk1 hk2
    rw [hcache, cacheLookup_setex_other _ _ _ _ _ _ hk2,
      cacheLookup_setex_other _ _ _ _ _ _ hk1]

theorem initiator_success_writes_pair_witness :
    cacheLookup
        (request_password_otp_and_code
          ⟨LookupResult.found, some "https://e/p?oobCode=tokW&m=1", fun _ => 7,
            false, false, true⟩
          [] 0 "u@x.co").cache
        (oobKey "u@x.co")
      = some ("tokW", 0 + OTP_EXPIRY_SECONDS) :=
  (initiator_success_writes_pair
      ⟨LookupResult.found, some "https://e/p?oobCode=tokW&m=1", fun _ => 7,
        false, false, true⟩
      [] 0 "u@x.co" "tokW" _ rfl (by decide) rfl rfl rfl rfl).2.2.1

/-- C3: when the initiator reaches the dispatch step (lookup found, token
minted, both writes succeeded) and the dispatch fails, the compensating
deletes leave neither `otp_reset:{email}` nor `oob_reset:{email}` in the
cache and the call answers 500; when the dispatch succeeds the call
answers 200 with the body `ackMessage email` — a function of the email
alone, so the acknowledgement carries neither the generated code nor the
extracted token. -/
theorem initiator_dispatch_failure_compensates (env : InitEnv) (c : Cache)
    (now : Nat) (email tok : String) (o : InitOutcome)
    (hfound : env.lookup = LookupResult.found)
    (hmint : mintedToken env = some tok)
    (h1 : env.setex1Fails = false)
    (h2 : env.setex2Fails = false)
    (ho : request_password_otp_and_code env c now email = o) :
    (env.emailSends = false →
      o.status = 500 ∧ o.emailAttempted = true ∧ o.message = none ∧
      cacheLookup o.cache (otpKey email) = none ∧
      cacheLookup o.cache (oobKey email) = none) ∧
    (env.emailSends = true →
      o.status = 200 ∧ o.emailAttempted = true ∧
      o.message = some (ackMessage email)) := by
  subst ho
  constructor
  · intro hsend
    have hcache : (request_password_otp_and_code env c now email).cache
        = cacheDel
            (cacheDel
              (cacheSetex
                (cacheSetex c now (otpKey email) (generate_otp env.otpPick 4)
                  OTP_EXPIRY_SECONDS)
                now (oobKey email) tok OTP_EXPIRY_SECONDS)
              (otpKey email))
            (oobKey email) := by
      simp [request_password_otp_and_code, hfound, hmint, h1, h2, hsend]
    refine ⟨?_, ?_, ?_, ?_, ?_⟩
    · simp [request_password_otp_and_code, hfound, hmint, h1, h2, hsend]
    · simp [request_password_otp_and_code, hfound, hmint, h1, h2, hsend]
    · simp [request_password_otp_and_code, hfound, hmint, h1, h2, hsend]
    · rw [hcache, cacheLookup_del, if_neg (otpKey_ne_oobKey email),
        cacheLookup_del, if_pos rfl]
    · rw [hcache, cacheLookup_del, if_pos rfl]
  · intro hsend
    refine ⟨?_, ?_, ?_⟩ <;>
      simp [request_password_otp_and_code, hfound, hmint, h1, h2, hsend]

theorem initiator_dispatch_failure_compensates_witness :
    cacheLookup
        (request_password_otp_and_code
          ⟨LookupResult.found, some "https://e/p?oobCode=tokW&m=1", fun _ => 7,
            false, false, false⟩
          [("otp_reset:u@x.co", "1111", 600)] 0 "u@x.co").cache
        (otpKey "u@x.co")
      = none :=
  ((initiator_dispatch_failure_compensates
      ⟨LookupResult.found, some "https://e/p?oobCode=tokW&m=1", fun _ => 7,
        false, false, false⟩
      [("otp_reset:u@x.co", "1111", 600)] 0 "u@x.co" "tokW" _ rfl (by decide)
      rfl rfl rfl).1 rfl).2.2.2.1

/-- C1: starting from any cache, a successful initiator call leaves a
pending pair for the email; submitting the stored code to the verifier at
any instant before the shared expiry answers 200 with exactly the token
that was minted and stored at request time, removes both cache entries,
and an immediate second verification with the same email and code answers
404. -/
theorem verify_consumes_pending_pair (env : InitEnv) (c : Cache)
    (now nowV : Nat) (email tok : String) (o : InitOutcome) (v : VerifyOutcome)
    (hfound : env.lookup = LookupResult.found)
    (hmint : mintedToken env = some tok)
    (h1 : env.setex1Fails = false)
    (h2 : env.setex2Fails = false)
    (hsend : env.emailSends = true)
    (hfresh : nowV < now + OTP_EXPIRY_SECONDS)
    (ho : request_password_otp_and_code env c now email = o)
    (hv : verify_otp_and_get_code noFaults o.cache nowV email
        (generate_otp env.otpPick 4) = v) :
    o.status = 200 ∧ v.status = 200 ∧ v.oobCode = some tok ∧
    cacheLookup v.cache (otpKey email) = none ∧
    cacheLookup v.cache (oobKey email) = none ∧
    (verify_otp_and_get_code noFaults v.cache nowV email
        (generate_otp env.otpPick 4)).status = 404 := by
  subst ho
  subst hv
  have hok := otpKey_ne_oobKey email
  have hotpne : generate_otp env.otpPick 4 ≠ "" :=
    generate_otp_ne_empty env.otpPick 4 (by omega)
  have htokne : tok ≠ "" := mintedToken_ne_empty env tok hmint
  have hcache : (request_password_otp_and_code env c now email).cache
      = cacheSetex
          (cacheSetex c now (otpKey email) (generate_otp env.otpPick 4)
            OTP_EXPIRY_SECONDS)
          now (oobKey email) tok OTP_EXPIRY_SECONDS := by
    simp [request_password_otp_and_code, hfound, hmint, h1, h2, hsend]
  have hget1 : cacheGet ((request_password_otp_and_code env c now email).cache)
      nowV (otpKey email) = some (generate_otp env.otpPick 4) := by
    rw [cacheGet, hcache, cacheLookup_setex_other _ _ _ _ _ _ hok,
      cacheLookup_setex_self]
    simp [hfresh]
  have hget2 : cacheGet ((request_password_otp_and_code env c now email).cache)
      nowV (oobKey email) = some tok := by
    rw [cacheGet, hcache, cacheLookup_setex_self]
    simp [hfresh]
  have hverify : verify_otp_and_get_code noFaults
      ((request_password_otp_and_code env c now email).cache) nowV email
      (generate_otp env.otpPick 4)
      = ⟨200, some tok,
          cacheDel
            (cacheDel ((request_password_otp_and_code env c now email).cache)
              (otpKey email))
            (oobKey email)⟩ := by
    simp [verify_otp_and_get_code, noFaults, hget1, hget2, hotpne, htokne]
  have hdel1 : cacheLookup
      (cacheDel
        (cacheDel ((request_password_otp_and_code env c now email).cache)
          (otpKey email))
        (oobKey email))
      (otpKey email) = none := by
    rw [cacheLookup_del, if_neg hok, cacheLookup_del, if_pos rfl]
  have hdel2 : cacheLookup
      (cacheDel
        (cacheDel ((request_password_otp_and_code env c now email).cache)
          (otpKey email))
        (oobKey email))
      (oobKey email) = none := by
    rw [cacheLookup_del, if_pos rfl]
  refine ⟨?_, ?_, ?_, ?_, ?_, ?_⟩
  · simp [request_password_otp_and_code, hfound, hmint, h1, h2, hsend]
  · rw [hverify]
  · rw [hverify]
  · rw [hverify]
    exact hdel1
  · rw [hverify]
    exact hdel2
  · rw [hverify]
    have hgone : cacheGet
        (cacheDel
          (cacheDel ((request_password_otp_and_code env c now email).cache)
            (otpKey email))
          (oobKey email))
        nowV (otpKey email) = none := by
      rw [cacheGet, hdel1]
    simp [verify_otp_and_get_code, noFaults, hgone]

theorem verify_consumes_pending_pair_witness :
    (verify_otp_and_get_code noFaults
        (request_password_otp_and_code
          ⟨LookupResult.found, some "https://e/p?oobCode=tokW&m=1", fun _ => 7,
            false, false, true⟩
          [] 0 "u@x.co").cache
        5 "u@x.co" (generate_otp (fun _ => 7) 4)).oobCode
      = some "tokW" :=
  (verify_consumes_pending_pair
      ⟨LookupResult.found, some "https://e/p?oobCode=tokW&m=1", fun _ => 7,
        false, false, true⟩
      [] 0 5 "u@x.co" "tokW" _ _ rfl (by decide) rfl rfl rfl (by decide)
      rfl rfl).2.2.1

/-- C8 counterexample: two successful initiator calls for the same email
whose 4-digit generators happen to draw the same code `"1111"` (the source
uses `random.choices`, which can repeat). After the second call completes,
submitting the first call's code `"1111"` is NOT rejected: the verifier
answers 200 (neither 400 nor 404) and releases the second call's
credential, refuting the claim that the first call's code is always
rejected after a second request. -/
theorem double_request_same_code_not_rejected :
    (request_password_otp_and_code
        ⟨LookupResult.found, some "https://e/p?oobCode=tkA&m=1", fun _ => 1,
          false, false, true⟩
        [] 0 "u@x.co").status = 200 ∧
    (request_password_otp_and_code
        ⟨LookupResult.found, some "https://e/p?oobCode=tkB&m=1", fun _ => 1,
          false, false, true⟩
        (request_password_otp_and_code
          ⟨LookupResult.found, some "https://e/p?oobCode=tkA&m=1", fun _ => 1,
            false, false, true⟩
          [] 0 "u@x.co").cache
        0 "u@x.co").status = 200 ∧
    generate_otp (fun _ => (1 : Fin 10)) 4 = "1111" ∧
    (verify_otp_and_get_code noFaults
        (request_password_otp_and_code
          ⟨LookupResult.found, some "https://e/p?oobCode=tkB&m=1", fun _ => 1,
            false, false, true⟩
          (request_password_otp_and_code
            ⟨LookupResult.found, some "https://e/p?oobCode=tkA&m=1", fun _ => 1,
              false, false, true⟩
            [] 0 "u@x.co").cache
          0 "u@x.co").cache
        1 "u@x.co" "1111").status = 200 ∧
    (verify_otp_and_get_code noFaults
        (request_password_otp_and_code
          ⟨LookupResult.found, some "https://e/p?oobCode=tkB&m=1", fun _ => 1,
            false, false, true⟩
          (request_password_otp_and_code
            ⟨LookupResult.found, some "https://e/p?oobCode=tkA&m=1", fun _ => 1,
              false, false, true⟩
            [] 0 "u@x.co").cache
          0 "u@x.co").cache
        1 "u@x.co" "1111").oobCode = some "tkB" := by
  refine ⟨by decide, by decide, by decide, by decide, by decide⟩

/-- C8 (amended): a second successful initiator call for the same email,
from any prior cache, unconditionally overwrites both entries with its own
code and token; afterwards only the second call's code matches — it yields
the second call's credential — and the first call's code is rejected with
400 whenever it differs from the second call's code (with equal random
draws the two codes coincide and the submission matches). -/
theorem second_request_overwrites_pair (env2 : InitEnv) (c1 : Cache)
    (now2 nowV : Nat) (email tok2 otp1 : String) (o2 : InitOutcome)
    (hfound : env2.lookup = LookupResult.found)
    (hmint : mintedToken env2 = some tok2)
    (h1 : env2.setex1Fails = false)
    (h2 : env2.setex2Fails = false)
    (hsend : env2.emailSends = true)
    (hfresh : nowV < now2 + OTP_EXPIRY_SECONDS)
    (ho : request_password_otp_and_code env2 c1 now2 email = o2)
    (hdiff : otp1 ≠ generate_otp env2.otpPick 4) :
    cacheLookup o2.cache (otpKey email)
      = some (generate_otp env2.otpPick 4, now2 + OTP_EXPIRY_SECONDS) ∧
    cacheLookup o2.cache (oobKey email)
      = some (tok2, now2 + OTP_EXPIRY_SECONDS) ∧
    verify_otp_and_get_code noFaults o2.cache nowV email otp1
      = ⟨400, none, o2.cache⟩ ∧
    (verify_otp_and_get_code noFaults o2.cache nowV email
        (generate_otp env2.otpPick 4)).status = 200 ∧
    (verify_otp_and_get_code noFaults o2.cache nowV email
        (generate_otp env2.otpPick 4)).oobCode = some tok2 := by
  subst ho
  have hok := otpKey_ne_oobKey email
  have hotpne : generate_otp env2.otpPick 4 ≠ "" :=
    generate_otp_ne_empty env2.otpPick 4 (by omega)
  have htokne : tok2 ≠ "" := mintedToken_ne_empty env2 tok2 hmint
  have hcache : (request_password_otp_and_code env2 c1 now2 email).cache
      = cacheSetex
          (cacheSetex c1 now2 (otpKey email) (generate_otp env2.otpPick 4)
            OTP_EXPIRY_SECONDS)
          now2 (oobKey email) tok2 OTP_EXPIRY_SECONDS := by
    simp [request_password_otp_and_code, hfound, hmint, h1, h2, hsend]
  have hlk1 : cacheLookup ((request_password_otp_and_code env2 c1 now2 email).cache)
      (otpKey email)
      = some (generate_otp env2.otpPick 4, now2 + OTP_EXPIRY_SECONDS) := by
    rw [hcache, cacheLookup_setex_other _ _ _ _ _ _ hok, cacheLookup_setex_self]
  have hlk2 : cacheLookup ((request_password_otp_and_code env2 c1 now2 email).cache)
      (oobKey email) = some (tok2, now2 + OTP_EXPIRY_SECONDS) := by
    rw [hcache, cacheLookup_setex_self]
  have hget1 : cacheGet ((request_password_otp_and_code env2 c1 now2 email).cache)
      nowV (otpKey email) = some (generate_otp env2.otpPick 4) := by
    rw [cacheGet, hlk1]
    simp [hfresh]
  have hget2 : cacheGet ((request_password_otp_and_code env2 c1 now2 email).cache)
      nowV (oobKey email) = some tok2 := by
    rw [cacheGet, hlk2]
    simp [hfresh]
  have hms : generate_otp env2.otpPick 4 ≠ otp1 := fun h => hdiff h.symm
  refine ⟨hlk1, hlk2, ?_, ?_, ?_⟩
  · simp [verify_otp_and_get_code, noFaults, hget1, hotpne, hms]
  · simp [verify_otp_and_get_code, noFaults, hget1, hget2, hotpne, htokne]
  · simp [verify_otp_and_get_code, noFaults, hget1, hget2, hotpne, htokne]

theorem second_request_overwrites_pair_witness :
    verify_otp_and_get_code noFaults
        (request_password_otp_and_code
          ⟨LookupResult.found, some "https://e/p?oobCode=tkB&m=1", fun _ => 2,
            false, false, true⟩
          [("otp_reset:u@x.co", "1111", 600), ("oob_reset:u@x.co", "tkA", 600)]
          0 "u@x.co").cache
        1 "u@x.co" "1111"
      = ⟨400, none,
          (request_password_otp_and_code
            ⟨LookupResult.found, some "https://e/p?oobCode=tkB&m=1", fun _ => 2,
              false, false, true⟩
            [("otp_reset:u@x.co", "1111", 600), ("oob_reset:u@x.co", "tkA", 600)]
            0 "u@x.co").cache⟩ :=
  (second_request_overwrites_pair
      ⟨LookupResult.found, some "https://e/p?oobCode=tkB&m=1", fun _ => 2,
        false, false, true⟩
      [("otp_reset:u@x.co", "1111", 600), ("oob_reset:u@x.co", "tkA", 600)]
      0 1 "u@x.co" "tkB" "1111" _ rfl (by decide) rfl rfl rfl (by decide)
      rfl (by decide)).2.2.1

/-- C4: for every link, if the marker `"oobCode="` first occurs at index
`idx`, then a successful extraction yields exactly the characters of the
link from just past the marker up to the next `'&'` or the end of the
string (the longest `'&'`-free segment starting there), and a failed
extraction means that segment is empty; if the marker is absent the
extraction fails; and whenever the extraction fails on the minted link the
initiator answers 500 with an unchanged cache and no email attempted. -/
theorem oob_extraction_spec (link : List Char) (env : InitEnv) (c : Cache)
    (now : Nat) (email ls : String) :
    (∀ idx : Nat, strFind link oobMarker 0 = some idx →
      (∀ t : List Char, extract_oob_code link = some t →
          t = (link.drop (idx + oobMarker.length)).takeWhile
                (fun ch => ch != '&')) ∧
      (extract_oob_code link = none →
        (link.drop (idx + oobMarker.length)).takeWhile (fun ch => ch != '&')
          = [])) ∧
    (strFind link oobMarker 0 = none → extract_oob_code link = none) ∧
    (env.lookup = LookupResult.found → env.linkResult = some ls →
      extract_oob_code ls.toList = none →
      request_password_otp_and_code env c now email = ⟨500, none, c, false⟩) := by
  refine ⟨?_, ?_, ?_⟩
  · intro idx hf
    have hf' : findSubAux oobMarker link 0 = some idx := by
      simp only [strFind, List.drop_zero] at hf
      cases hcase : findSubAux oobMarker link 0 with
      | none => rw [hcase] at hf; simp at hf
      | some j =>
          rw [hcase] at hf
          have hj : j = idx := by simpa using hf
          rw [hj]
    have hX : extract_oob_code link
        = (if ((link.drop (idx + oobMarker.length)).takeWhile
                (fun ch => ch != '&')).isEmpty
           then none
           else some ((link.drop (idx + oobMarker.length)).takeWhile
                (fun ch => ch != '&'))) := by
      simp only [extract_oob_code, strFind, List.drop_zero, hf',
        Option.map_some', Nat.zero_add]
      cases hcase : findSubAux ['&'] (link.drop (idx + oobMarker.length)) 0 with
      | some j =>
          have hw := findSubAux_single_some '&'
            (link.drop (idx + oobMarker.length)) j hcase
          simp only [Option.map_some', Nat.add_sub_cancel_left]
          rw [hw]
      | none =>
          have hw := findSubAux_single_none '&'
            (link.drop (idx + oobMarker.length)) hcase
          simp only [Option.map_none']
          rw [hw]
    constructor
    · intro t ht
      rw [hX] at ht
      split at ht
      · exact absurd ht (by simp)
      · exact (Option.some.injEq _ _).mp ht.symm
    · intro hnone
      rw [hX] at hnone
      split at hnone
      · rename_i hemp
        simpa using hemp
      · exact absurd hnone (by simp)
  · intro hf
    simp [extract_oob_code, hf]
  · intro hfound hl hext
    have hext' : extract_oob_code ls.data = none := hext
    have hm : mintedToken env = none := by
      simp [mintedToken, hl, hext']
    simp [request_password_otp_and_code, hfound, hm]

theorem oob_extraction_spec_witness :
    extract_oob_code ("https://e/a?oobCode=tok123&x=1".toList)
      = some ("tok123".toList) ∧
    "tok123".toList
      = (("https://e/a?oobCode=tok123&x=1".toList).drop
          (12 + oobMarker.length)).takeWhile (fun ch => ch != '&') :=
  ⟨by decide,
    ((oob_extraction_spec ("https://e/a?oobCode=tok123&x=1".toList)
        ⟨LookupResult.found, none, fun _ => 0, false, false, false⟩
        [] 0 "u@x.co" "https://e/a?x=1").1 12 (by decide)).1
      ("tok123".toList) (by decide)⟩

end GearUp
